import Mathlib

/-!
Verification of the audio pipeline and result-recording logic of the
Phisherman security-awareness training app.

The embedding models:
* `createWavHeader` / `playAudio` from `src/services/geminiService.ts`
  (bytes are `Nat` values; `DataView.setUint32`/`setUint16` truncate the
  written value modulo 2^32 / 2^16, which the embedding makes explicit);
* `handleDeepfakeGuess` / `startDeepfakeChallenge` from `src/App.tsx`;
* the `POST /api/results` security-score update from the Express server;
* `generateDeepfakeAudio` from `src/services/geminiService.ts`.
-/

/-- Little-endian byte serialisation of `DataView.setUint32(off, v, true)`:
JavaScript first converts `v` with `ToUint32` (reduction modulo 2^32) and
then stores the four bytes least-significant first. -/
def u32le (v : Nat) : List Nat :=
  let w := v % 4294967296
  [w % 256, w / 256 % 256, w / 65536 % 256, w / 16777216 % 256]

/-- Little-endian byte serialisation of `DataView.setUint16(off, v, true)`:
`ToUint16` reduction modulo 2^16, then two bytes least-significant first. -/
def u16le (v : Nat) : List Nat :=
  let w := v % 65536
  [w % 256, w / 256 % 256]

/-- The helper `writeString(view, offset, string)` of `geminiService.ts`:
it stores `string.charCodeAt(i)` (via `setUint8`, i.e. modulo 2^8) at
consecutive offsets. -/
def writeString (s : String) : List Nat :=
  s.toList.map (fun c => c.toNat % 256)

/-- `createWavHeader(dataLength, sampleRate)` of `geminiService.ts`: a
44-byte RIFF/WAVE header, written field by field in offset order exactly
as the source writes it into the `DataView`. -/
def createWavHeader (dataLength sampleRate : Nat) : List Nat :=
  writeString "RIFF"
    ++ u32le (36 + dataLength)
    ++ writeString "WAVE"
    ++ writeString "fmt "
    ++ u32le 16
    ++ u16le 1
    ++ u16le 1
    ++ u32le sampleRate
    ++ u32le (sampleRate * 2)
    ++ u16le 2
    ++ u16le 16
    ++ writeString "data"
    ++ u32le dataLength

/-- Little-endian read of a 16-bit field at byte offset `i` (out-of-range
bytes read as 0). -/
def readU16 (f : List Nat) (i : Nat) : Nat :=
  f.getD i 0 + 256 * f.getD (i + 1) 0

/-- Little-endian read of a 32-bit field at byte offset `i`. -/
def readU32 (f : List Nat) (i : Nat) : Nat :=
  f.getD i 0 + 256 * f.getD (i + 1) 0 + 65536 * f.getD (i + 2) 0
    + 16777216 * f.getD (i + 3) 0

/-- What a standard WAV (RIFF) parser reports about a file. -/
structure WavInfo where
  sampleRate : Nat
  numChannels : Nat
  bitsPerSample : Nat
  data : List Nat
  deriving DecidableEq, Repr

/-- Modelled from the spec: the "standard WAV (RIFF) parser" of the
round-trip sentence, reading the canonical single-`fmt `-chunk layout the
spec lists field by field (`RIFF`/size/`WAVE`/`fmt `/16/.../`data`/size).
It checks the magic strings and the declared sizes, then reports the format
fields and the bytes of the data chunk. -/
def parseWav (f : List Nat) : Option WavInfo :=
  if f.take 4 = writeString "RIFF"
      ∧ (f.drop 8).take 4 = writeString "WAVE"
      ∧ (f.drop 12).take 4 = writeString "fmt "
      ∧ readU32 f 16 = 16
      ∧ readU16 f 20 = 1
      ∧ (f.drop 36).take 4 = writeString "data"
      ∧ 44 + readU32 f 40 ≤ f.length then
    some { sampleRate := readU32 f 24
           numChannels := readU16 f 22
           bitsPerSample := readU16 f 34
           data := (f.drop 44).take (readU32 f 40) }
  else
    none

/-- `TypedArray.prototype.set(src, offset)` on a `Uint8Array`: the call
throws a `RangeError` (modelled as `none`) when the source does not fit,
and otherwise overwrites `src.length` bytes starting at `offset`. -/
def typedArraySet (arr src : List Nat) (off : Nat) : Option (List Nat) :=
  if off + src.length ≤ arr.length then
    some (arr.take off ++ src ++ arr.drop (off + src.length))
  else
    none

/-- The buffer-assembly steps of `playAudio` in `geminiService.ts`: allocate
`new Uint8Array(wavHeader.length + len)` (zero-filled), `set(wavHeader, 0)`,
then `set(bytes, wavHeader.length)`. -/
def playAudioWavBytes (bytes : List Nat) : Option (List Nat) :=
  let wavHeader := createWavHeader bytes.length 24000
  (typedArraySet (List.replicate (wavHeader.length + bytes.length) 0) wavHeader 0).bind
    (fun a => typedArraySet a bytes wavHeader.length)

/-- `playAudio` of `geminiService.ts`. The `window.atob` call is a browser
builtin, modelled by its outcome `decoded`: `none` when it throws on invalid
base64, `some bytes` when it yields the decoded byte string. The whole body
runs inside `try { ... } catch { return null }`, so every failure becomes
`none`; on success the function hands the assembled WAV buffer to the
`Audio` element, modelled by returning the buffer. -/
def playAudio (decoded : Option (List Nat)) : Option (List Nat) :=
  match decoded with
  | none => none
  | some bytes =>
    match playAudioWavBytes bytes with
    | none => none
    | some wav => some wav

/-- The `security_score INTEGER DEFAULT 100` default of the `employees`
table schema. -/
def defaultSecurityScore : Int := 100

/-- The score update the `POST /api/results` handler runs on the targeted
employee: `MAX(0, security_score - 5)` when the submitted `is_correct` is
falsy, `MIN(100, security_score + 2)` otherwise. -/
def updateScore (is_correct : Bool) (score : Int) : Int :=
  if !is_correct then max 0 (score - 5) else min 100 (score + 2)

/-- The security score an employee holds after a sequence of
`POST /api/results` requests, starting from the schema default. -/
def scoreAfter (ops : List Bool) : Int :=
  ops.foldl (fun s c => updateScore c s) defaultSecurityScore

/-- The two possible answers in the Deepfake Lab challenge of `App.tsx`. -/
inductive Guess where
  | authentic
  | synthetic
  deriving DecidableEq, Repr

/-- The outcome record `handleDeepfakeGuess` builds and shows
(`setFeedback(result)`). -/
structure SimFeedback where
  score : Int
  feedback : String
  correctFlags : List String
  missedFlags : List String
  deriving DecidableEq, Repr

/-- The feedback string of `handleDeepfakeGuess` for a correct guess. -/
def deepfakeCorrectMsg : String :=
  "Correct! You identified the synthetic patterns in the voice. Notice the slight lack of natural breathing and the consistent pitch."

/-- The feedback string of `handleDeepfakeGuess` for an incorrect guess. -/
def deepfakeIncorrectMsg : String :=
  "Incorrect. This was an AI-generated clone. Modern deepfakes can be extremely convincing, but often lack the subtle emotional variance of human speech."

/-- The ground truth `startDeepfakeChallenge` stores:
`setDeepfakeSolution('synthetic')`, with the source comment "Currently
always synthetic for the demo". -/
def deepfakeSolution : Guess := Guess.synthetic

/-- `handleDeepfakeGuess` of `App.tsx`: the outcome record it constructs
from the user guess and the stored solution (no other input takes part in
the computation). -/
def handleDeepfakeGuess (guess solution : Guess) : SimFeedback :=
  let isCorrect : Bool := guess == solution
  { score := if isCorrect then 100 else 0
    feedback := if isCorrect then deepfakeCorrectMsg else deepfakeIncorrectMsg
    correctFlags := if isCorrect then ["AI Voice Pattern"] else []
    missedFlags := if isCorrect then [] else ["Synthetic Pitch Consistency"] }

/-- The characters `String.prototype.trim` strips: the ECMAScript
WhiteSpace set (TAB, VT, FF, SP, NBSP, ZWNBSP and the Unicode
space-separator category Zs) together with the LineTerminator set
(LF, CR, LS, PS). -/
def jsWhitespace (c : Char) : Bool :=
  [0x9, 0xA, 0xB, 0xC, 0xD, 0x20, 0xA0, 0x1680, 0x2000, 0x2001, 0x2002,
    0x2003, 0x2004, 0x2005, 0x2006, 0x2007, 0x2008, 0x2009, 0x200A,
    0x2028, 0x2029, 0x202F, 0x205F, 0x3000, 0xFEFF].contains c.toNat

/-- Model of the JavaScript builtin `String.prototype.trim`: strip leading
and trailing `jsWhitespace` characters. -/
def jsTrim (s : String) : String :=
  String.mk (((s.toList.dropWhile jsWhitespace).reverse.dropWhile
    jsWhitespace).reverse)

/-- The message of the error `generateDeepfakeAudio` throws before the API
call. -/
def emptyTextError : String := "Text for audio generation cannot be empty"

/-- The message of the error `generateDeepfakeAudio` throws when the
response carries no inline audio data. -/
def noAudioError : String := "No audio data received from Gemini API"

/-- `generateDeepfakeAudio` of `geminiService.ts`. A thrown error is
`Except.error`; the text check `!text || text.trim().length === 0` runs
before the `ai.models.generateContent` call, whose extracted
`...inlineData?.data` outcome is the `apiAudio` argument (`none` when the
optional chain yields nothing). The surrounding `try/catch` logs and
rethrows, so the thrown errors reach the caller unchanged. -/
def generateDeepfakeAudio (text : String) (apiAudio : Option String) :
    Except String String :=
  if text = "" ∨ (jsTrim text).length = 0 then
    Except.error emptyTextError
  else
    match apiAudio with
    | some a => Except.ok a
    | none => Except.error noAudioError

/-- The header laid out as an explicit list of its 44 bytes. -/
lemma createWavHeader_cons (n sr : Nat) : createWavHeader n sr =
    82 :: 73 :: 70 :: 70 ::
    ((36 + n) % 4294967296 % 256) :: ((36 + n) % 4294967296 / 256 % 256) ::
      ((36 + n) % 4294967296 / 65536 % 256) :: ((36 + n) % 4294967296 / 16777216 % 256) ::
    87 :: 65 :: 86 :: 69 :: 102 :: 109 :: 116 :: 32 ::
    16 :: 0 :: 0 :: 0 :: 1 :: 0 :: 1 :: 0 ::
    (sr % 4294967296 % 256) :: (sr % 4294967296 / 256 % 256) ::
      (sr % 4294967296 / 65536 % 256) :: (sr % 4294967296 / 16777216 % 256) ::
    (sr * 2 % 4294967296 % 256) :: (sr * 2 % 4294967296 / 256 % 256) ::
      (sr * 2 % 4294967296 / 65536 % 256) :: (sr * 2 % 4294967296 / 16777216 % 256) ::
    2 :: 0 :: 16 :: 0 ::
    100 :: 97 :: 116 :: 97 ::
    (n % 4294967296 % 256) :: (n % 4294967296 / 256 % 256) ::
      (n % 4294967296 / 65536 % 256) :: (n % 4294967296 / 16777216 % 256) :: [] := by
  rfl

/-- The generated header always occupies exactly 44 bytes. -/
lemma createWavHeader_len (n sr : Nat) : (createWavHeader n sr).length = 44 := by
  rw [createWavHeader_cons]
  rfl

/-- Reassembling a 32-bit value from its four little-endian bytes. -/
lemma readU32_bytes (w : Nat) (h : w < 4294967296) :
    w % 256 + 256 * (w / 256 % 256) + 65536 * (w / 65536 % 256)
      + 16777216 * (w / 16777216 % 256) = w := by
  omega


lemma writeString_RIFF : writeString "RIFF" = [82, 73, 70, 70] := rfl

lemma writeString_WAVE : writeString "WAVE" = [87, 65, 86, 69] := rfl

lemma writeString_fmt : writeString "fmt " = [102, 109, 116, 32] := rfl

lemma writeString_data : writeString "data" = [100, 97, 116, 97] := rfl

lemma hdr_riff_size (n sr : Nat) :
    readU32 (createWavHeader n sr) 4 = (36 + n) % 4294967296 := by
  rw [createWavHeader_cons, readU32]
  simp only [List.getD_cons_succ, List.getD_cons_zero]
  omega

lemma hdr_data_size (n sr : Nat) :
    readU32 (createWavHeader n sr) 40 = n % 4294967296 := by
  rw [createWavHeader_cons, readU32]
  simp only [List.getD_cons_succ, List.getD_cons_zero]
  omega

lemma hdr_sample_rate (n sr : Nat) :
    readU32 (createWavHeader n sr) 24 = sr % 4294967296 := by
  rw [createWavHeader_cons, readU32]
  simp only [List.getD_cons_succ, List.getD_cons_zero]
  omega

lemma hdr_byte_rate (n sr : Nat) :
    readU32 (createWavHeader n sr) 28 = sr * 2 % 4294967296 := by
  rw [createWavHeader_cons, readU32]
  simp only [List.getD_cons_succ, List.getD_cons_zero]
  omega

lemma hdr_fmt_fixed (n sr : Nat) :
    readU32 (createWavHeader n sr) 16 = 16 ∧ readU16 (createWavHeader n sr) 20 = 1
      ∧ readU16 (createWavHeader n sr) 22 = 1 ∧ readU16 (createWavHeader n sr) 32 = 2
      ∧ readU16 (createWavHeader n sr) 34 = 16 := by
  rw [createWavHeader_cons]
  exact ⟨rfl, rfl, rfl, rfl, rfl⟩

lemma hdr_magics (n sr : Nat) :
    (createWavHeader n sr).take 4 = [82, 73, 70, 70]
      ∧ ((createWavHeader n sr).drop 8).take 4 = [87, 65, 86, 69]
      ∧ ((createWavHeader n sr).drop 12).take 4 = [102, 109, 116, 32]
      ∧ ((createWavHeader n sr).drop 36).take 4 = [100, 97, 116, 97] := by
  rw [createWavHeader_cons]
  exact ⟨rfl, rfl, rfl, rfl⟩

lemma readU32_append (hd p : List Nat) (i : Nat) (h : i + 4 ≤ hd.length) :
    readU32 (hd ++ p) i = readU32 hd i := by
  unfold readU32
  rw [List.getD_append _ _ _ _ (by omega), List.getD_append _ _ _ _ (by omega),
    List.getD_append _ _ _ _ (by omega), List.getD_append _ _ _ _ (by omega)]

lemma readU16_append (hd p : List Nat) (i : Nat) (h : i + 2 ≤ hd.length) :
    readU16 (hd ++ p) i = readU16 hd i := by
  unfold readU16
  rw [List.getD_append _ _ _ _ (by omega), List.getD_append _ _ _ _ (by omega)]

lemma parseWav_header_append (p : List Nat) :
    parseWav (createWavHeader p.length 24000 ++ p) =
      some { sampleRate := 24000, numChannels := 1, bitsPerSample := 16,
             data := p.take (p.length % 4294967296) } := by
  have hlen : (createWavHeader p.length 24000).length = 44 := createWavHeader_len _ _
  have hmag := hdr_magics p.length 24000
  have hfix := hdr_fmt_fixed p.length 24000
  have htake4 : (createWavHeader p.length 24000 ++ p).take 4 = [82, 73, 70, 70] := by
    rw [List.take_append_of_le_length (by omega)]
    exact hmag.1
  have hdrop8 : ((createWavHeader p.length 24000 ++ p).drop 8).take 4 = [87, 65, 86, 69] := by
    rw [List.drop_append_of_le_length (by omega),
      List.take_append_of_le_length (by simp [hlen])]
    exact hmag.2.1
  have hdrop12 : ((createWavHeader p.length 24000 ++ p).drop 12).take 4 = [102, 109, 116, 32] := by
    rw [List.drop_append_of_le_length (by omega),
      List.take_append_of_le_length (by simp [hlen])]
    exact hmag.2.2.1
  have hdrop36 : ((createWavHeader p.length 24000 ++ p).drop 36).take 4 = [100, 97, 116, 97] := by
    rw [List.drop_append_of_le_length (by omega),
      List.take_append_of_le_length (by simp [hlen])]
    exact hmag.2.2.2
  have h16 : readU32 (createWavHeader p.length 24000 ++ p) 16 = 16 := by
    rw [readU32_append _ _ _ (by omega)]
    exact hfix.1
  have h20 : readU16 (createWavHeader p.length 24000 ++ p) 20 = 1 := by
    rw [readU16_append _ _ _ (by omega)]
    exact hfix.2.1
  have h22 : readU16 (createWavHeader p.length 24000 ++ p) 22 = 1 := by
    rw [readU16_append _ _ _ (by omega)]
    exact hfix.2.2.1
  have h34 : readU16 (createWavHeader p.length 24000 ++ p) 34 = 16 := by
    rw [readU16_append _ _ _ (by omega)]
    exact hfix.2.2.2.2
  have h24 : readU32 (createWavHeader p.length 24000 ++ p) 24 = 24000 := by
    rw [readU32_append _ _ _ (by omega), hdr_sample_rate]
  have h40 : readU32 (createWavHeader p.length 24000 ++ p) 40 = p.length % 4294967296 := by
    rw [readU32_append _ _ _ (by omega), hdr_data_size]
  have hdrop44 : (createWavHeader p.length 24000 ++ p).drop 44 = p := by
    rw [← hlen, List.drop_left]
  have hflen : (createWavHeader p.length 24000 ++ p).length = 44 + p.length := by
    simp [hlen]
  rw [parseWav, if_pos]
  · rw [h24, h22, h34, h40, hdrop44]
  · refine ⟨?_, ?_, ?_, h16, h20, ?_, ?_⟩
    · rw [htake4, writeString_RIFF]
    · rw [hdrop8, writeString_WAVE]
    · rw [hdrop12, writeString_fmt]
    · rw [hdrop36, writeString_data]
    · rw [h40, hflen]
      have := Nat.mod_le p.length 4294967296
      omega

lemma parseWav_roundTrip_of_lt (p : List Nat) (h : 36 + p.length < 4294967296) :
    parseWav (createWavHeader p.length 24000 ++ p) =
      some { sampleRate := 24000, numChannels := 1, bitsPerSample := 16, data := p } := by
  rw [parseWav_header_append, Nat.mod_eq_of_lt (by omega), List.take_length]

lemma playAudioWavBytes_eq (b : List Nat) :
    playAudioWavBytes b = some (createWavHeader b.length 24000 ++ b) := by
  unfold playAudioWavBytes typedArraySet
  simp only [List.length_replicate, Nat.zero_add, List.take_zero, List.nil_append,
    List.drop_replicate, Nat.add_sub_cancel_left]
  rw [if_pos (Nat.le_add_right _ _)]
  simp only [Option.some_bind]
  rw [if_pos (by simp [List.length_append])]
  rw [List.take_left]
  congr 1
  rw [List.drop_eq_nil_of_le (by simp [List.length_append])]
  simp

/-- C1 (amended): for every payload, bytes 44 onwards of the buffer
`createWavHeader(N, 24000) ++ payload` equal the payload; and whenever the
payload length N satisfies 36 + N < 2^32, the buffer parses to sample rate
24000, 1 channel, 16-bit depth, with the data chunk exactly the payload. -/
theorem wav_header_payload_roundTrip (p : List Nat) :
    (createWavHeader p.length 24000 ++ p).drop 44 = p
      ∧ (36 + p.length < 4294967296 →
          parseWav (createWavHeader p.length 24000 ++ p) =
            some { sampleRate := 24000, numChannels := 1, bitsPerSample := 16,
                   data := p }) := by
  constructor
  · rw [← createWavHeader_len p.length 24000, List.drop_left]
  · exact fun h => parseWav_roundTrip_of_lt p h

theorem wav_header_payload_roundTrip_witness :
    (createWavHeader ([10, 20, 30] : List Nat).length 24000 ++ [10, 20, 30]).drop 44
      = [10, 20, 30]
      ∧ parseWav (createWavHeader ([10, 20, 30] : List Nat).length 24000 ++ [10, 20, 30]) =
        some { sampleRate := 24000, numChannels := 1, bitsPerSample := 16,
               data := [10, 20, 30] } :=
  ⟨(wav_header_payload_roundTrip [10, 20, 30]).1,
   (wav_header_payload_roundTrip [10, 20, 30]).2 (by norm_num)⟩

/-- C1 counterexample: at payload length 2^32 the 32-bit data-size field
wraps to 0, so the parser recovers an empty data chunk, not the payload. -/
theorem wav_roundTrip_fails_at_2_pow_32 :
    parseWav (createWavHeader (List.replicate 4294967296 (0 : Nat)).length 24000
        ++ List.replicate 4294967296 (0 : Nat)) ≠
      some { sampleRate := 24000, numChannels := 1, bitsPerSample := 16,
             data := List.replicate 4294967296 (0 : Nat) } := by
  rw [parseWav_header_append]
  intro hcontra
  rw [List.length_replicate, Nat.mod_self, List.take_zero] at hcontra
  have h1 := Option.some.inj hcontra
  have h2 : ([] : List Nat) = List.replicate 4294967296 (0 : Nat) :=
    congrArg WavInfo.data h1
  have h3 := congrArg List.length h2
  rw [List.length_nil, List.length_replicate] at h3
  omega

/-- C2: the array returned by `createWavHeader` has length exactly 44 bytes
for every `dataLength` and `sampleRate`. -/
theorem wav_header_length_always_44 (dataLength sampleRate : Nat) :
    (createWavHeader dataLength sampleRate).length = 44 :=
  createWavHeader_len dataLength sampleRate

/-- C3 (amended): bytes 4 to 7 hold the little-endian uint32 encoding of
(36 + N) mod 2^32 and bytes 40 to 43 that of N mod 2^32; whenever
36 + N < 2^32 these equal 36 + N and N. -/
theorem wav_length_fields (n sr : Nat) :
    readU32 (createWavHeader n sr) 4 = (36 + n) % 4294967296
      ∧ readU32 (createWavHeader n sr) 40 = n % 4294967296
      ∧ (36 + n < 4294967296 →
          readU32 (createWavHeader n sr) 4 = 36 + n
            ∧ readU32 (createWavHeader n sr) 40 = n) := by
  refine ⟨hdr_riff_size n sr, hdr_data_size n sr, fun h => ⟨?_, ?_⟩⟩
  · rw [hdr_riff_size]
    exact Nat.mod_eq_of_lt (by omega)
  · rw [hdr_data_size]
    exact Nat.mod_eq_of_lt (by omega)

theorem wav_length_fields_witness :
    readU32 (createWavHeader 3 24000) 4 = 36 + 3
      ∧ readU32 (createWavHeader 3 24000) 40 = 3 :=
  (wav_length_fields 3 24000).2.2 (by norm_num)

/-- C3 counterexample: at N = 2^32 the data-length field holds 0, not N,
so the fields are not the encodings of 36 + N and N for every N. -/
theorem wav_length_fields_wrap_at_2_pow_32 :
    ¬ (readU32 (createWavHeader 4294967296 24000) 4 = 36 + 4294967296
        ∧ readU32 (createWavHeader 4294967296 24000) 40 = 4294967296) := by
  intro h
  have h2 := h.2
  rw [hdr_data_size] at h2
  simp only [Nat.mod_self] at h2
  omega

/-- C4: in every header, bytes 0 to 3 are the ASCII codes of "RIFF",
bytes 8 to 11 of "WAVE", bytes 12 to 15 of "fmt " and bytes 36 to 39 of
"data". -/
theorem wav_header_magic_bytes (n sr : Nat) :
    (createWavHeader n sr).take 4 = writeString "RIFF"
      ∧ ((createWavHeader n sr).drop 8).take 4 = writeString "WAVE"
      ∧ ((createWavHeader n sr).drop 12).take 4 = writeString "fmt "
      ∧ ((createWavHeader n sr).drop 36).take 4 = writeString "data" := by
  rw [writeString_RIFF, writeString_WAVE, writeString_fmt, writeString_data]
  exact hdr_magics n sr

/-- C5: in the header built with sample rate 24000 (as `playAudio` invokes
it), the format-chunk fields hold 16, 1 (PCM), 1 channel, rate 24000,
byte rate 48000 = 24000 x 2, block align 2 and 16 bits per sample. -/
theorem wav_format_chunk_fields (n : Nat) :
    readU32 (createWavHeader n 24000) 16 = 16
      ∧ readU16 (createWavHeader n 24000) 20 = 1
      ∧ readU16 (createWavHeader n 24000) 22 = 1
      ∧ readU32 (createWavHeader n 24000) 24 = 24000
      ∧ readU16 (createWavHeader n 24000) 32 = 2
      ∧ readU16 (createWavHeader n 24000) 34 = 16
      ∧ readU32 (createWavHeader n 24000) 28 = 48000 := by
  have hf := hdr_fmt_fixed n 24000
  have hs := hdr_sample_rate n 24000
  have hb := hdr_byte_rate n 24000
  norm_num at hs hb
  exact ⟨hf.1, hf.2.1, hf.2.2.1, hs, hf.2.2.2.1, hf.2.2.2.2, hb⟩

/-- C6: for every decoded payload of N bytes, `playAudio` assembles
exactly the 44-byte header followed by the N payload bytes, a buffer of
total length 44 + N. -/
theorem playAudio_buffer_layout (b : List Nat) :
    playAudioWavBytes b = some (createWavHeader b.length 24000 ++ b)
      ∧ (createWavHeader b.length 24000 ++ b).length = 44 + b.length := by
  refine ⟨playAudioWavBytes_eq b, ?_⟩
  simp [createWavHeader_len]

/-- C7 counterexample: the Deepfake Lab outcome for the concrete guess
`authentic` is computed entirely by `handleDeepfakeGuess` against the
locally fixed solution `synthetic`: the score 0, the feedback string and
both flag lists are local constants, with no external-API value in the
computation. -/
theorem deepfake_outcome_locally_computed :
    handleDeepfakeGuess Guess.authentic deepfakeSolution =
      { score := 0, feedback := deepfakeIncorrectMsg, correctFlags := [],
        missedFlags := ["Synthetic Pitch Consistency"] }
      ∧ deepfakeSolution = Guess.synthetic :=
  ⟨rfl, rfl⟩

/-- C7 (amended): the deepfake simulation outcome is a pure local function
of the user guess: against the locally fixed solution `synthetic`, the
guess `synthetic` yields score 100 with fixed feedback and flags, any
other guess yields score 0 with fixed feedback and flags; no value from
the generative-AI API takes part. -/
theorem deepfake_outcome_characterisation (g : Guess) :
    handleDeepfakeGuess g deepfakeSolution =
      if g = Guess.synthetic then
        { score := 100, feedback := deepfakeCorrectMsg,
          correctFlags := ["AI Voice Pattern"], missedFlags := [] }
      else
        { score := 0, feedback := deepfakeIncorrectMsg,
          correctFlags := [], missedFlags := ["Synthetic Pitch Consistency"] } := by
  cases g <;> rfl

/-- C8: starting from the schema default of 100, every security score
reachable through a sequence of `POST /api/results` updates stays within
[0, 100]. -/
theorem security_score_in_range (ops : List Bool) :
    0 ≤ scoreAfter ops ∧ scoreAfter ops ≤ 100 := by
  have key : ∀ (l : List Bool) (s : Int), 0 ≤ s → s ≤ 100 →
      0 ≤ l.foldl (fun t c => updateScore c t) s
        ∧ l.foldl (fun t c => updateScore c t) s ≤ 100 := by
    intro l
    induction l with
    | nil => exact fun s h0 h1 => ⟨h0, h1⟩
    | cons c t ih =>
      intro s h0 h1
      simp only [List.foldl_cons]
      apply ih
      · cases c <;> (simp [updateScore]; try omega)
      · cases c <;> (simp [updateScore]; try omega)
  exact key ops defaultSecurityScore (by norm_num [defaultSecurityScore])
    (by norm_num [defaultSecurityScore])

/-- C9: `playAudio` is total on every decoding outcome: when the base64
decode fails it returns null (`none`), and otherwise it returns the audio
element holding the header-plus-payload buffer; no exception escapes. -/
theorem playAudio_no_exception (decoded : Option (List Nat)) :
    playAudio decoded = decoded.map (fun b => createWavHeader b.length 24000 ++ b) := by
  cases decoded with
  | none => rfl
  | some b =>
    have h := playAudioWavBytes_eq b
    simp [playAudio, h]

/-- C10: `generateDeepfakeAudio` throws the empty-text error for every
whitespace-only text, independently of any API outcome (so before the
call); and for non-blank text it throws the no-audio error exactly when
the response carries no inline audio data. -/
theorem generateDeepfakeAudio_throws (text : String) (apiAudio : Option String) :
    ((jsTrim text).length = 0 →
        generateDeepfakeAudio text apiAudio = Except.error emptyTextError)
      ∧ ((jsTrim text).length ≠ 0 →
          generateDeepfakeAudio text none = Except.error noAudioError) := by
  constructor
  · intro h
    unfold generateDeepfakeAudio
    rw [if_pos (Or.inr h)]
  · intro h
    have hcond : ¬ (text = "" ∨ (jsTrim text).length = 0) := by
      intro hor
      cases hor with
      | inl he => exact h (by rw [he]; rfl)
      | inr hl => exact h hl
    unfold generateDeepfakeAudio
    rw [if_neg hcond]

theorem generateDeepfakeAudio_throws_witness :
    generateDeepfakeAudio "   " (some "abc") = Except.error emptyTextError
      ∧ generateDeepfakeAudio "hello" none = Except.error noAudioError :=
  ⟨(generateDeepfakeAudio_throws "   " (some "abc")).1 (by decide),
   (generateDeepfakeAudio_throws "hello" none).2 (by decide)⟩
